import Mathlib

/-!
Shallow embedding of the actix-web CRUD service in `src/main.rs`.

The service manages one table `items (id, name, description)` with five
handlers: `create_item`, `get_items`, `get_item`, `update_item`,
`delete_item`.  The store is modelled as a list of rows; each SQL
statement executed by a handler is a pure function on that list.
Driver-level failure of a database call (connectivity, etc.) is injected
through a boolean `dbFail` parameter: `dbFail = true` means the sqlx call
returns `Err`, `dbFail = false` means the call reaches the table.
`Uuid::new_v4()` is external randomness, passed in as a parameter.
-/

/-- Row of the `items` table, mirroring the Rust struct `Item`. -/
structure Item where
  id : Nat
  name : String
  description : String
deriving Repr, DecidableEq

/-- Model of `uuid::Uuid` values (identity is all that matters here). -/
abbrev Uuid := Nat

/-- The `items` table: the list of its rows. -/
abbrev Store := List Item

/-- Mirrors the Rust struct `ItemCreateRequest` (JSON body of POST). -/
structure ItemCreateRequest where
  name : String
  description : String
deriving Repr, DecidableEq

/-- Mirrors the Rust struct `ItemUpdateRequest` (JSON body of PUT). -/
structure ItemUpdateRequest where
  name : String
  description : String
deriving Repr, DecidableEq

/-- Body of an HTTP response as the handlers build it: a JSON item
(`.json(Item ...)`), a JSON array (`.json(items)`), a plain-text body
(`.body("...")`), or the empty body of `InternalServerError().into()`. -/
inductive RespBody where
  | jsonItem (i : Item)
  | jsonList (l : List Item)
  | text (s : String)
  | empty
deriving Repr, DecidableEq

/-- An HTTP response: status code and body. -/
structure HttpResponse where
  status : Nat
  body : RespBody
deriving Repr, DecidableEq

/-- The table's primary-key constraint on `id`: an INSERT succeeds at the
database only if no existing row already carries the inserted id. -/
def sqlInsertOk (s : Store) (id : Uuid) : Bool :=
  s.all (fun r => r.id != id)

/-- Effect of `INSERT INTO items (id, name, description) VALUES ($1,$2,$3)`. -/
def sqlInsert (s : Store) (r : Item) : Store :=
  s ++ [r]

/-- Result of `SELECT id, name, description FROM items` (fetch_all). -/
def sqlSelectAll (s : Store) : List Item :=
  s

/-- Result of `SELECT id, name, description FROM items WHERE id = $1`
(fetch_one): the first row matching the id, if any. -/
def sqlSelectOne (s : Store) (id : Uuid) : Option Item :=
  s.find? (fun r => r.id == id)

/-- Effect of `UPDATE items SET name = $1, description = $2 WHERE id = $3`. -/
def sqlUpdate (s : Store) (id : Uuid) (nm ds : String) : Store :=
  s.map (fun r => if r.id == id then ⟨r.id, nm, ds⟩ else r)

/-- Effect of `DELETE FROM items WHERE id = $1`. -/
def sqlDelete (s : Store) (id : Uuid) : Store :=
  s.filter (fun r => r.id != id)

/-- Handler for POST /items (`create_item` in main.rs): insert a row with a
freshly generated id, answer 201 with the item built from the input on
`Ok`, 500 with no body on `Err`. -/
def create_item (dbFail : Bool) (s : Store) (genId : Uuid)
    (item : ItemCreateRequest) : HttpResponse × Store :=
  let row : Item := ⟨genId, item.name, item.description⟩
  if dbFail || !(sqlInsertOk s genId) then
    (⟨500, RespBody.empty⟩, s)
  else
    (⟨201, RespBody.jsonItem row⟩, sqlInsert s row)

/-- Handler for GET /items (`get_items` in main.rs): fetch all rows, answer
200 with the JSON array on `Ok`, 500 on `Err`. -/
def get_items (dbFail : Bool) (s : Store) : HttpResponse × Store :=
  if dbFail then
    (⟨500, RespBody.empty⟩, s)
  else
    (⟨200, RespBody.jsonList (sqlSelectAll s)⟩, s)

/-- Handler for GET /items/{id} (`get_item` in main.rs): fetch_one the row;
any failure of that call — zero rows as well as a driver error — lands in
the `Err` arm and answers 404 "Item not found". -/
def get_item (dbFail : Bool) (s : Store) (item_id : Uuid) :
    HttpResponse × Store :=
  if dbFail then
    (⟨404, RespBody.text "Item not found"⟩, s)
  else
    match sqlSelectOne s item_id with
    | some item => (⟨200, RespBody.jsonItem item⟩, s)
    | none => (⟨404, RespBody.text "Item not found"⟩, s)

/-- Handler for PUT /items/{id} (`update_item` in main.rs): execute the
UPDATE, answer 200 with an item built from the path id and the request
body on `Ok` (the affected-row count is never read), 500 on `Err`. -/
def update_item (dbFail : Bool) (s : Store) (item_id : Uuid)
    (item : ItemUpdateRequest) : HttpResponse × Store :=
  if dbFail then
    (⟨500, RespBody.empty⟩, s)
  else
    (⟨200, RespBody.jsonItem ⟨item_id, item.name, item.description⟩⟩,
      sqlUpdate s item_id item.name item.description)

/-- Handler for DELETE /items/{id} (`delete_item` in main.rs): execute the
DELETE, answer 200 "Item deleted" on `Ok` (the affected-row count is never
read), 500 on `Err`. -/
def delete_item (dbFail : Bool) (s : Store) (item_id : Uuid) :
    HttpResponse × Store :=
  if dbFail then
    (⟨500, RespBody.empty⟩, s)
  else
    (⟨200, RespBody.text "Item deleted"⟩, sqlDelete s item_id)

/-! Helper lemmas about the SQL semantics. -/

/-- A find? that fails on the left part of an append continues on the right. -/
theorem find?_append_of_none {p : Item → Bool} {l₁ l₂ : List Item}
    (h : l₁.find? p = none) : (l₁ ++ l₂).find? p = l₂.find? p := by
  rw [List.find?_append, h, Option.none_or]

/-- A fresh id (no row found for it) satisfies the primary-key constraint. -/
theorem sqlInsertOk_of_selectOne_none {s : Store} {id : Uuid}
    (h : sqlSelectOne s id = none) : sqlInsertOk s id = true := by
  rw [sqlSelectOne, List.find?_eq_none] at h
  rw [sqlInsertOk, List.all_eq_true]
  intro r hr
  have := h r hr
  simpa using this

/-- After deleting an id, no row with that id can be found. -/
theorem sqlSelectOne_sqlDelete (s : Store) (id : Uuid) :
    sqlSelectOne (sqlDelete s id) id = none := by
  rw [sqlSelectOne, List.find?_eq_none]
  intro r hr
  rw [sqlDelete, List.mem_filter] at hr
  simpa using hr.2

/-! Claim theorems. -/

/-- C1: when the update handler's SQL execute succeeds it returns HTTP 200
with an item JSON built entirely from the input — the path identifier as id
and the client-supplied name and description — for every store, so updating
a non-existent identifier yields the very same 200 response as updating an
existing one (no re-read, no affected-row-count check). -/
theorem update_item_success_echoes_input (s : Store) (item_id : Uuid)
    (item : ItemUpdateRequest) :
    (update_item false s item_id item).1 =
      ⟨200, RespBody.jsonItem ⟨item_id, item.name, item.description⟩⟩ ∧
    ∀ s' : Store, (update_item false s item_id item).1 =
      (update_item false s' item_id item).1 := by
  exact ⟨rfl, fun s' => rfl⟩

/-- C2: the get-item handler returns HTTP 200 with the item JSON when the
single-row fetch succeeds, and HTTP 404 with plain-text body "Item not
found" for every failure of that fetch — the zero-rows case and the
driver-error case map to the same 404 response. -/
theorem get_item_outcomes (s : Store) (item_id : Uuid) :
    (∀ it : Item, sqlSelectOne s item_id = some it →
      get_item false s item_id = (⟨200, RespBody.jsonItem it⟩, s)) ∧
    (sqlSelectOne s item_id = none →
      get_item false s item_id = (⟨404, RespBody.text "Item not found"⟩, s)) ∧
    get_item true s item_id = (⟨404, RespBody.text "Item not found"⟩, s) := by
  refine ⟨fun it hit => ?_, fun hnone => ?_, rfl⟩
  · simp [get_item, hit]
  · simp [get_item, hnone]

/-- C2 witness: on the one-row store for id 1, the fetch succeeds and the
handler answers 200 with the row. -/
theorem get_item_outcomes_witness :
    get_item false [⟨1, "a", "b"⟩] 1 =
      (⟨200, RespBody.jsonItem ⟨1, "a", "b"⟩⟩, [⟨1, "a", "b"⟩]) :=
  (get_item_outcomes [⟨1, "a", "b"⟩] 1).1 ⟨1, "a", "b"⟩ rfl

/-- C3 counterexample: no combination of driver outcome, store and
identifier makes the get-item handler answer HTTP 500 — both failure modes
land in the single `Err` arm, which answers 404. -/
theorem get_item_never_500 :
    ¬ ∃ (dbFail : Bool) (s : Store) (item_id : Uuid),
      ((get_item dbFail s item_id).1).status = 500 := by
  rintro ⟨dbFail, s, item_id, h⟩
  cases dbFail with
  | true => simp [get_item] at h
  | false =>
    rcases hf : sqlSelectOne s item_id with _ | it <;>
      simp [get_item, hf] at h

/-- C3 amended: every outcome of the GET /items/{id} route is either
HTTP 200 with an item JSON or HTTP 404 "Item not found"; no store failure
produces HTTP 500. -/
theorem get_item_only_200_or_404 (dbFail : Bool) (s : Store)
    (item_id : Uuid) :
    (∃ it : Item, (get_item dbFail s item_id).1 =
        ⟨200, RespBody.jsonItem it⟩) ∨
    (get_item dbFail s item_id).1 = ⟨404, RespBody.text "Item not found"⟩ := by
  cases dbFail with
  | true => exact Or.inr rfl
  | false =>
    rcases hf : sqlSelectOne s item_id with _ | it
    · exact Or.inr (by simp [get_item, hf])
    · exact Or.inl ⟨it, by simp [get_item, hf]⟩

/-- C4: when the delete handler's SQL execute succeeds it returns HTTP 200
with plain-text body "Item deleted" for every store and identifier —
whether or not a row with that identifier existed — and when the execute
fails it returns HTTP 500. -/
theorem delete_item_outcomes (s : Store) (item_id : Uuid) :
    (delete_item false s item_id).1 = ⟨200, RespBody.text "Item deleted"⟩ ∧
    (delete_item true s item_id).1 = ⟨500, RespBody.empty⟩ := by
  exact ⟨rfl, rfl⟩

/-- C5: when the create handler's insert succeeds it returns HTTP 201 whose
JSON body carries the freshly generated identifier with exactly the
client-supplied name and description, and the store gains exactly the one
row (id, name, description); when the insert fails it returns HTTP 500
with no body and the store is unchanged. -/
theorem create_item_outcomes (s : Store) (genId : Uuid)
    (item : ItemCreateRequest) :
    (sqlInsertOk s genId = true →
      create_item false s genId item =
        (⟨201, RespBody.jsonItem ⟨genId, item.name, item.description⟩⟩,
          s ++ [⟨genId, item.name, item.description⟩])) ∧
    create_item true s genId item = (⟨500, RespBody.empty⟩, s) := by
  refine ⟨fun hok => ?_, rfl⟩
  simp [create_item, hok, sqlInsert]

/-- C5 witness: creating on the empty store with generated id 0 inserts the
one row and answers 201 with it. -/
theorem create_item_outcomes_witness :
    create_item false [] 0 ⟨"a", "b"⟩ =
      (⟨201, RespBody.jsonItem ⟨0, "a", "b"⟩⟩, [⟨0, "a", "b"⟩]) :=
  (create_item_outcomes [] 0 ⟨"a", "b"⟩).1 rfl

/-- C6: after a successful create that returned identifier genId — the id
being fresh, as a successful insert under the primary key guarantees — a
get-item request for genId with no intervening writes answers HTTP 200
with the same id, name and description as the create response. -/
theorem create_then_get_roundtrip (s : Store) (genId : Uuid)
    (item : ItemCreateRequest) (hfresh : sqlSelectOne s genId = none) :
    (create_item false s genId item).1 =
      ⟨201, RespBody.jsonItem ⟨genId, item.name, item.description⟩⟩ ∧
    get_item false (create_item false s genId item).2 genId =
      (⟨200, RespBody.jsonItem ⟨genId, item.name, item.description⟩⟩,
        (create_item false s genId item).2) := by
  have hok : sqlInsertOk s genId = true := sqlInsertOk_of_selectOne_none hfresh
  have hstore : (create_item false s genId item).2 =
      s ++ [⟨genId, item.name, item.description⟩] := by
    simp [create_item, hok, sqlInsert]
  have hfind : sqlSelectOne (s ++ [⟨genId, item.name, item.description⟩]) genId
      = some ⟨genId, item.name, item.description⟩ := by
    rw [sqlSelectOne, find?_append_of_none hfresh]
    simp [List.find?_cons]
  constructor
  · simp [create_item, hok]
  · rw [hstore]
    simp [get_item, hfind]

/-- C6 witness: creating on the empty store with generated id 0 and then
fetching id 0 round-trips the created item. -/
theorem create_then_get_roundtrip_witness :
    (create_item false [] 0 ⟨"a", "b"⟩).1 =
      ⟨201, RespBody.jsonItem ⟨0, "a", "b"⟩⟩ ∧
    get_item false (create_item false [] 0 ⟨"a", "b"⟩).2 0 =
      (⟨200, RespBody.jsonItem ⟨0, "a", "b"⟩⟩,
        (create_item false [] 0 ⟨"a", "b"⟩).2) :=
  create_then_get_roundtrip [] 0 ⟨"a", "b"⟩ rfl

/-- C7: deleting the identifier of an existing item answers HTTP 200 "Item
deleted", and a subsequent get-item request for that identifier, with no
intervening writes, answers HTTP 404 — the deleted row is gone. -/
theorem delete_then_get_404 (s : Store) (item_id : Uuid)
    (_hex : ∃ r ∈ s, r.id = item_id) :
    delete_item false s item_id =
      (⟨200, RespBody.text "Item deleted"⟩, sqlDelete s item_id) ∧
    get_item false (delete_item false s item_id).2 item_id =
      (⟨404, RespBody.text "Item not found"⟩, sqlDelete s item_id) := by
  constructor
  · rfl
  · have h := sqlSelectOne_sqlDelete s item_id
    simp [delete_item, get_item, h]

/-- C7 witness: deleting id 1 from the store holding exactly the row with
id 1 answers 200 "Item deleted", and the following fetch of id 1 answers
404 "Item not found". -/
theorem delete_then_get_404_witness :
    delete_item false [⟨1, "a", "b"⟩] 1 =
      (⟨200, RespBody.text "Item deleted"⟩, sqlDelete [⟨1, "a", "b"⟩] 1) ∧
    get_item false (delete_item false [⟨1, "a", "b"⟩] 1).2 1 =
      (⟨404, RespBody.text "Item not found"⟩, sqlDelete [⟨1, "a", "b"⟩] 1) :=
  delete_then_get_404 [⟨1, "a", "b"⟩] 1
    ⟨⟨1, "a", "b"⟩, List.mem_singleton.mpr rfl, rfl⟩

/-- C8: when the list handler's fetch succeeds it returns HTTP 200 with the
JSON array of exactly the rows of the table — the empty array on the empty
table — and when the fetch fails it returns HTTP 500. -/
theorem get_items_outcomes (s : Store) :
    get_items false s = (⟨200, RespBody.jsonList (sqlSelectAll s)⟩, s) ∧
    sqlSelectAll s = s ∧
    get_items false [] = (⟨200, RespBody.jsonList []⟩, []) ∧
    get_items true s = (⟨500, RespBody.empty⟩, s) :=
  ⟨rfl, rfl, rfl, rfl⟩

/-- C9: a successful update touches only the name and description of rows
matching the path identifier: the table keeps its length, the id held at
every position is unchanged, and every row whose id differs from the path
identifier is left entirely unchanged. -/
theorem update_item_frame (s : Store) (item_id : Uuid)
    (item : ItemUpdateRequest) :
    ((update_item false s item_id item).2).length = s.length ∧
    ∀ i : Nat,
      (((update_item false s item_id item).2)[i]?).map Item.id =
        (s[i]?).map Item.id ∧
      ∀ r : Item, s[i]? = some r → r.id ≠ item_id →
        ((update_item false s item_id item).2)[i]? = some r := by
  have hs : (update_item false s item_id item).2 =
      sqlUpdate s item_id item.name item.description := rfl
  refine ⟨by rw [hs, sqlUpdate, List.length_map], fun i => ⟨?_, ?_⟩⟩
  · rw [hs, sqlUpdate, List.getElem?_map]
    cases hg : s[i]? with
    | none => rfl
    | some r =>
      by_cases hr : r.id = item_id <;> simp [hr]
  · intro r hg hne
    rw [hs, sqlUpdate, List.getElem?_map, hg]
    simp [hne]

/-- C9 witness: updating id 1 in a two-row store leaves the row with id 2
at position 1 entirely unchanged. -/
theorem update_item_frame_witness :
    ((update_item false [⟨1, "a", "b"⟩, ⟨2, "c", "d"⟩] 1 ⟨"x", "y"⟩).2)[1]? =
      some ⟨2, "c", "d"⟩ :=
  ((update_item_frame [⟨1, "a", "b"⟩, ⟨2, "c", "d"⟩] 1 ⟨"x", "y"⟩).2 1).2
    ⟨2, "c", "d"⟩ rfl (by decide)

/-- C10: the two read handlers are pure with respect to the store: for
every driver outcome, store and identifier, the list handler and the
get-item handler leave the table exactly unchanged. -/
theorem read_handlers_preserve_store (dbFail : Bool) (s : Store)
    (item_id : Uuid) :
    (get_items dbFail s).2 = s ∧ (get_item dbFail s item_id).2 = s := by
  constructor
  · cases dbFail <;> rfl
  · cases dbFail with
    | true => rfl
    | false =>
      rcases hf : sqlSelectOne s item_id with _ | it <;> simp [get_item, hf]
